import Mathlib

/-!
Shallow embedding of the HealthPulse data processor
(`backend/data_processing/processor.py`) and proofs about its behaviour.

Conventions used throughout:
* machine floats (risk scores, lab values, thresholds) are modelled as `ℚ`;
* ISO timestamps are modelled as `ℤ` minutes, so the dedup lookback of
  `datetime.timedelta(hours=4)` becomes `4 * 60` minutes;
* a SQL table of the relational store is a `List` of row structures, in
  insertion order;
* a missing JSON field (`dict.get` returning `None`) is `Option.none`; a
  nullable SQL column is likewise an `Option`;
* alert `message` / `recommended_action` strings (pure text formatting in
  `generate_alert`, read back by nothing in the processor) are not carried;
* writes to the InfluxDB time-series store are not modelled: no claim
  observes them and no relational read depends on them.
-/

namespace HealthPulse

/-- Priority cut points for one risk type: one entry of the threshold
policy, e.g. `{'high': 0.7, 'medium': 0.4}`. -/
structure Thresholds where
  high : ℚ
  medium : ℚ
deriving DecidableEq

/-- A threshold policy: the JSON object stored under
`system_settings.alert_thresholds`, mapping risk type to cut points. -/
abbrev Policy := List (String × Thresholds)

/-- Python dict lookup `thresholds[risk_type]` guarded by
`risk_type in thresholds`: first (only) binding wins. -/
def lookupPolicy : Policy → String → Option Thresholds
  | [], _ => none
  | p :: rest, rt => if p.1 = rt then some p.2 else lookupPolicy rest rt

/-- Built-in default thresholds: module constant `ALERT_THRESHOLDS` of
processor.py. -/
def ALERT_THRESHOLDS : Policy :=
  [("deterioration", ⟨7/10, 4/10⟩),
   ("readmission", ⟨8/10, 5/10⟩),
   ("sepsis", ⟨6/10, 3/10⟩)]

/-- One row of the `alerts` table. The serial `id` column is elided: rows
are identified by position and the processor never reads an id back. -/
structure AlertRow where
  patient_id : String
  timestamp : ℤ
  risk_type : String
  risk_score : ℚ
  priority : String
  status : String
deriving DecidableEq

/-- The 4-hour dedup lookback of `generate_alert`, in minutes. -/
def dedupWindow : ℤ := 4 * 60

/-- The dedup query of `generate_alert`: `SELECT id FROM alerts WHERE
patient_id = :patient_id AND risk_type = :risk_type AND status = 'active'
AND timestamp > :cutoff_time`, where `cutoff_time` is the event timestamp
minus 4 hours. -/
def dedupHit (alerts : List AlertRow) (pid rt : String) (ts : ℤ) : Bool :=
  alerts.any (fun a =>
    decide (a.patient_id = pid ∧ a.risk_type = rt ∧ a.status = "active" ∧
      ts - dedupWindow < a.timestamp))

/-- `generate_alert`: return early when the dedup query finds a row,
otherwise insert exactly one new row with status `'active'`. -/
def generate_alert (alerts : List AlertRow) (pid rt : String) (score : ℚ)
    (priority : String) (ts : ℤ) : List AlertRow :=
  if dedupHit alerts pid rt ts then alerts
  else alerts ++ [⟨pid, ts, rt, score, priority, "active"⟩]

/-- Python `float(risk_scores.get(risk_type, 0))`. -/
def getScore : List (String × ℚ) → String → ℚ
  | [], _ => 0
  | p :: rest, rt => if p.1 = rt then p.2 else getScore rest rt

/-- The tiering decision of `check_risk_alerts` for one risk type: `none`
when the policy has no entry for it or the score is below the `medium` cut
point, otherwise the candidate priority. -/
def riskCandidate (thr : Policy) (rt : String) (score : ℚ) : Option String :=
  match lookupPolicy thr rt with
  | none => none
  | some t =>
    if score ≥ t.high then some "high"
    else if score ≥ t.medium then some "medium"
    else none

/-- Outcome of reading `system_settings` for key `'alert_thresholds'`:
a successful read carries the stored policy row when one exists; `fail`
models the query raising (swallowed by the handler's `except`). -/
inductive SettingsRead where
  | ok : Option Policy → SettingsRead
  | fail : SettingsRead
deriving DecidableEq

/-- One iteration of the `for risk_type in [...]` loop body of
`check_risk_alerts`. -/
def riskStep (thr : Policy) (pid : String) (scores : List (String × ℚ))
    (ts : ℤ) (acc : List AlertRow) (rt : String) : List AlertRow :=
  match riskCandidate thr rt (getScore scores rt) with
  | some p => generate_alert acc pid rt (getScore scores rt) p ts
  | none => acc

/-- `check_risk_alerts`: load the policy (the stored row when present, the
built-in defaults otherwise) and check the three risk types in order. A
failing store read aborts the whole check (caught by the enclosing
`except`), so no alert is generated. -/
def check_risk_alerts (rd : SettingsRead) (alerts : List AlertRow)
    (pid : String) (scores : List (String × ℚ)) (ts : ℤ) : List AlertRow :=
  match rd with
  | .fail => alerts
  | .ok row =>
    let thr := row.getD ALERT_THRESHOLDS
    ["deterioration", "readmission", "sepsis"].foldl
      (riskStep thr pid scores ts) alerts

/-- Normalized deviation of a lab value from its normal range, as computed
by `check_lab_alert` (a zero-width normal range is replaced by width 1). -/
def labDeviation (value nmin nmax : ℚ) : ℚ :=
  let w := nmax - nmin
  let w' := if w = 0 then 1 else w
  if value < nmin then (nmin - value) / w'
  else if value > nmax then (value - nmax) / w'
  else 0

/-- One `patient-labs` stream message; every field is optional at the JSON
level. -/
structure LabMessage where
  patient_id : Option String
  timestamp : Option ℤ
  test_name : Option String
  value : Option ℚ
  unit : Option String
  normal_min : Option ℚ
  normal_max : Option ℚ
deriving DecidableEq

/-- `check_lab_alert`: alert on deviation ≥ 0.5 with priority `high` once
the deviation reaches 1.0, else `medium`; the risk type is `lab_` plus the
lower-cased test name. On every path that reaches `generate_alert` in the
Python code all five matched fields are present; a `None` among them makes
the body raise inside its own `try` (or skip the branch), leaving the
alerts store unchanged, which the catch-all arm models. -/
def check_lab_alert (alerts : List AlertRow) (pid : String) (m : LabMessage) :
    List AlertRow :=
  match m.normal_min, m.normal_max, m.value, m.test_name, m.timestamp with
  | some nmin, some nmax, some v, some tn, some ts =>
    let d := labDeviation v nmin nmax
    if d ≥ 1/2 then
      generate_alert alerts pid ("lab_" ++ tn.toLower) d
        (if d ≥ 1 then "high" else "medium") ts
    else alerts
  | _, _, _, _, _ => alerts

/-- One row of the `patients` table. -/
structure PatientRow where
  patient_id : String
  mrn : Option String
  name : Option String
  gender : Option String
  age : Option ℤ
  department : Option String
  room : Option String
  admission_date : Option String
  attending_physician : Option String
deriving DecidableEq

/-- The `medication` payload of a medication event or one entry of a
snapshot's `medications` list. -/
structure MedPayload where
  name : Option String
  dosage : Option String
  frequency : Option String
  route : Option String
  start_date : Option ℤ
deriving DecidableEq

/-- One `patient-data` (snapshot) stream message. -/
structure PatientMessage where
  patient_id : Option String
  mrn : Option String
  name : Option String
  gender : Option String
  age : Option ℤ
  department : Option String
  room : Option String
  admission_date : Option String
  attending_physician : Option String
  diagnoses : Option (List String)
  comorbidities : Option (List String)
  risk_scores : Option (List (String × ℚ))
  medications : Option (List MedPayload)
deriving DecidableEq

/-- The `patient_record` dict built by `process_patient_data`. -/
def mkPatientRow (pid : String) (m : PatientMessage) : PatientRow :=
  ⟨pid, m.mrn, m.name, m.gender, m.age, m.department, m.room,
    m.admission_date, m.attending_physician⟩

/-- One row of the `medications` table. -/
structure MedRow where
  patient_id : String
  name : Option String
  dosage : Option String
  frequency : Option String
  route : Option String
  start_date : Option ℤ
  end_date : Option ℤ
deriving DecidableEq

/-- One `patient-medications` stream message. -/
structure MedMessage where
  patient_id : Option String
  timestamp : Option ℤ
  action : Option String
  medication : Option MedPayload
  old_dosage : Option String
deriving DecidableEq

/-- One `patient-vitals` stream message. -/
structure VitalsMessage where
  patient_id : Option String
  timestamp : Option ℤ
  heart_rate : Option ℚ
  systolic_bp : Option ℚ
  diastolic_bp : Option ℚ
  temperature : Option ℚ
  respiration_rate : Option ℚ
  o2_saturation : Option ℚ
  pain_level : Option ℚ
deriving DecidableEq

/-- One row of the `vitals` table. -/
structure VitalsRow where
  patient_id : String
  timestamp : ℤ
  heart_rate : Option ℚ
  systolic_bp : Option ℚ
  diastolic_bp : Option ℚ
  temperature : Option ℚ
  respiration_rate : Option ℚ
  o2_saturation : Option ℚ
  pain_level : Option ℚ
deriving DecidableEq

/-- One row of the `lab_results` table. -/
structure LabRow where
  patient_id : String
  timestamp : ℤ
  test_name : Option String
  value : Option ℚ
  unit : Option String
  normal_min : Option ℚ
  normal_max : Option ℚ
  is_abnormal : Bool
deriving DecidableEq

/-- One row of the `risk_scores` table. -/
structure RiskRow where
  patient_id : String
  timestamp : ℤ
  deterioration_risk : ℚ
  readmission_risk : ℚ
  sepsis_risk : ℚ
deriving DecidableEq

/-- The relational store, one list per table, plus the (fixed) outcome of
reading the threshold policy from `system_settings`. -/
structure DbState where
  patients : List PatientRow
  diagnoses : List (String × String)
  comorbidities : List (String × String)
  risk_scores : List RiskRow
  vitals : List VitalsRow
  lab_results : List LabRow
  medications : List MedRow
  alerts : List AlertRow
  settings : SettingsRead
deriving DecidableEq

/-- SQL three-valued equality for a nullable column against a nullable
bind parameter: `col = :param` is satisfied only when both sides are
non-NULL and equal (`x = NULL` is never true). -/
def sqlEq {α : Type} [DecidableEq α] : Option α → Option α → Bool
  | some x, some y => decide (x = y)
  | _, _ => false

/-- `upsert_patient`: `SELECT` for existence, then `UPDATE` of every
column of every row with this `patient_id`, or a fresh `INSERT`. -/
def upsert_patient (patients : List PatientRow) (r : PatientRow) :
    List PatientRow :=
  if patients.any (fun p => decide (p.patient_id = r.patient_id)) then
    patients.map (fun p => if p.patient_id = r.patient_id then r else p)
  else patients ++ [r]

/-- `process_diagnoses`: early return on an empty (or falsy) list, else
`DELETE` of the patient's rows followed by one `INSERT ... ON CONFLICT
(patient_id, diagnosis) DO NOTHING` per entry. -/
def process_diagnoses (rows : List (String × String)) (pid : String)
    (ds : List String) : List (String × String) :=
  if ds = [] then rows
  else
    ds.foldl
      (fun acc d =>
        if acc.any (fun y => decide (y.1 = pid ∧ y.2 = d)) then acc
        else acc ++ [(pid, d)])
      (rows.filter (fun y => !decide (y.1 = pid)))

/-- `process_comorbidities`: same shape as `process_diagnoses` over the
`comorbidities` table. -/
def process_comorbidities (rows : List (String × String)) (pid : String)
    (cs : List String) : List (String × String) :=
  if cs = [] then rows
  else
    cs.foldl
      (fun acc c =>
        if acc.any (fun y => decide (y.1 = pid ∧ y.2 = c)) then acc
        else acc ++ [(pid, c)])
      (rows.filter (fun y => !decide (y.1 = pid)))

/-- `process_risk_scores`: early return on an empty dict, else one plain
`INSERT` into `risk_scores` followed by `check_risk_alerts`. -/
def process_risk_scores (s : DbState) (pid : String)
    (rs : List (String × ℚ)) (ts : ℤ) : DbState :=
  if rs = [] then s
  else
    let s1 := { s with risk_scores := s.risk_scores ++
      [(⟨pid, ts, getScore rs "deterioration", getScore rs "readmission",
        getScore rs "sepsis"⟩ : RiskRow)] }
    { s1 with alerts := check_risk_alerts s1.settings s1.alerts pid rs ts }

/-- `process_all_medications`: early return on an empty list, else one
`UPDATE` closing every active row of the patient (`end_date = NOW()`)
followed by one `INSERT` per entry of the new list. -/
def process_all_medications (meds : List MedRow) (pid : String)
    (ms : List MedPayload) (now : ℤ) : List MedRow :=
  if ms = [] then meds
  else
    (meds.map (fun r =>
      if r.patient_id = pid ∧ r.end_date = none then
        { r with end_date := some now }
      else r)) ++
    ms.map (fun p => ⟨pid, p.name, p.dosage, p.frequency, p.route,
      p.start_date, none⟩)

/-- `process_patient_data`: skip without `patient_id`, else upsert the
patient record and process each present optional block in order. `now`
stands for the wall clock (`NOW()` / `datetime.now()`), used as the
timestamp of the forwarded risk scores. -/
def process_patient_data (s : DbState) (m : PatientMessage) (now : ℤ) :
    DbState :=
  match m.patient_id with
  | none => s
  | some pid =>
    let s1 := { s with patients := upsert_patient s.patients (mkPatientRow pid m) }
    let s2 := match m.diagnoses with
      | some ds => { s1 with diagnoses := process_diagnoses s1.diagnoses pid ds }
      | none => s1
    let s3 := match m.comorbidities with
      | some cs => { s2 with comorbidities := process_comorbidities s2.comorbidities pid cs }
      | none => s2
    let s4 := match m.risk_scores with
      | some rs => process_risk_scores s3 pid rs now
      | none => s3
    match m.medications with
    | some ms => { s4 with medications := process_all_medications s4.medications pid ms now }
    | none => s4

/-- Modelled from the spec: the relational schema DDL is not part of the
sources under src/. Spec §4.3 states that writes with a natural row key
are idempotent at the row-identity level, `patient+timestamp` for vitals;
so the `vitals` table is modelled as enforcing uniqueness of
`(patient_id, timestamp)`, a duplicate `INSERT` raising (the handler's
catch-all `except` swallows the error). -/
def insertVitals (rows : List VitalsRow) (r : VitalsRow) :
    Except Unit (List VitalsRow) :=
  if rows.any (fun x =>
      decide (x.patient_id = r.patient_id ∧ x.timestamp = r.timestamp)) then
    .error ()
  else .ok (rows ++ [r])

/-- Modelled from the spec: as `insertVitals`, with the natural key
`patient+timestamp+test_name` of spec §4.3 for the `lab_results` table. -/
def insertLab (rows : List LabRow) (r : LabRow) :
    Except Unit (List LabRow) :=
  if rows.any (fun x =>
      decide (x.patient_id = r.patient_id ∧ x.timestamp = r.timestamp ∧
        x.test_name = r.test_name)) then
    .error ()
  else .ok (rows ++ [r])

/-- `process_vitals`: skip without `patient_id` or `timestamp`, else one
`INSERT` into `vitals`; a raising insert leaves the state unchanged. -/
def process_vitals (s : DbState) (m : VitalsMessage) : DbState :=
  match m.patient_id, m.timestamp with
  | some pid, some ts =>
    match insertVitals s.vitals ⟨pid, ts, m.heart_rate, m.systolic_bp,
        m.diastolic_bp, m.temperature, m.respiration_rate, m.o2_saturation,
        m.pain_level⟩ with
    | .error _ => s
    | .ok rows => { s with vitals := rows }
  | _, _ => s

/-- `process_labs`: skip without `patient_id` or `timestamp`; compute
`is_abnormal` (false unless value and both bounds are present); `INSERT`
into `lab_results`; on an abnormal value call `check_lab_alert`. A raising
insert aborts the handler before the alert path. -/
def process_labs (s : DbState) (m : LabMessage) : DbState :=
  match m.patient_id, m.timestamp with
  | some pid, some ts =>
    let ab : Bool :=
      match m.normal_min, m.normal_max, m.value with
      | some nmin, some nmax, some v => decide (v < nmin ∨ v > nmax)
      | _, _, _ => false
    match insertLab s.lab_results ⟨pid, ts, m.test_name, m.value, m.unit,
        m.normal_min, m.normal_max, ab⟩ with
    | .error _ => s
    | .ok rows =>
      let s1 := { s with lab_results := rows }
      if ab then { s1 with alerts := check_lab_alert s1.alerts pid m }
      else s1
  | _, _ => s

/-- `process_medication` (its effect on the `medications` table): skip
when `patient_id`, `timestamp`, `action` or `medication` is missing, else
dispatch on the action string. `add` inserts a new active row (start date
defaulting to the event timestamp via Python `or`); `discontinue` closes
the active rows matching name and start date; `change_dose` closes the
active rows matching name and old dosage, then inserts a new active row.
Column comparisons against possibly-NULL bind parameters follow SQL
semantics (`sqlEq`). -/
def process_medication (meds : List MedRow) (m : MedMessage) : List MedRow :=
  match m.patient_id, m.timestamp, m.action, m.medication with
  | some pid, some ts, some act, some md =>
    if act = "add" then
      meds ++ [⟨pid, md.name, md.dosage, md.frequency, md.route,
        some (md.start_date.getD ts), none⟩]
    else if act = "discontinue" then
      meds.map (fun r =>
        if decide (r.patient_id = pid) && sqlEq r.name md.name &&
            sqlEq r.start_date md.start_date && decide (r.end_date = none) then
          { r with end_date := some ts }
        else r)
    else if act = "change_dose" then
      (meds.map (fun r =>
        if decide (r.patient_id = pid) && sqlEq r.name md.name &&
            sqlEq r.dosage m.old_dosage && decide (r.end_date = none) then
          { r with end_date := some ts }
        else r)) ++
      [⟨pid, md.name, md.dosage, md.frequency, md.route, some ts, none⟩]
    else meds
  | _, _, _, _ => meds

/-- Number of active rows of the `medications` table for one
`(patient_id, name)` key. -/
def countActive (meds : List MedRow) (pid nm : String) : ℕ :=
  meds.countP (fun r =>
    decide (r.patient_id = pid ∧ r.name = some nm ∧ r.end_date = none))

/-- The medication invariant of the spec: at most one active course per
`(patient_id, name)`. -/
def MedInvariant (meds : List MedRow) : Prop :=
  ∀ pid nm, countActive meds pid nm ≤ 1

/-- The rows of the alerts store for one risk type. -/
def alertsFor (alerts : List AlertRow) (rt : String) : List AlertRow :=
  alerts.filter (fun a => decide (a.risk_type = rt))

/-! ### Helper lemmas about the alert engine -/

lemma alertsFor_append (l₁ l₂ : List AlertRow) (rt : String) :
    alertsFor (l₁ ++ l₂) rt = alertsFor l₁ rt ++ alertsFor l₂ rt := by
  simp [alertsFor, List.filter_append]

lemma dedupHit_append (l₁ l₂ : List AlertRow) (pid rt : String) (ts : ℤ) :
    dedupHit (l₁ ++ l₂) pid rt ts =
      (dedupHit l₁ pid rt ts || dedupHit l₂ pid rt ts) := by
  simp [dedupHit, List.any_append]

lemma alertsFor_generate_alert_ne (acc : List AlertRow) (pid rt' : String)
    (sc : ℚ) (p : String) (ts : ℤ) (rt : String) (h : rt' ≠ rt) :
    alertsFor (generate_alert acc pid rt' sc p ts) rt = alertsFor acc rt := by
  unfold generate_alert
  split
  · rfl
  · rw [alertsFor_append]
    simp [alertsFor, h]

lemma dedupHit_generate_alert_ne (acc : List AlertRow) (pid' rt' : String)
    (sc : ℚ) (p : String) (ts' : ℤ) (pid rt : String) (ts : ℤ)
    (h : rt' ≠ rt) :
    dedupHit (generate_alert acc pid' rt' sc p ts') pid rt ts =
      dedupHit acc pid rt ts := by
  unfold generate_alert
  split
  · rfl
  · rw [dedupHit_append]
    simp [dedupHit, h]

lemma alertsFor_riskStep_ne (thr : Policy) (pid : String)
    (scores : List (String × ℚ)) (ts : ℤ) (acc : List AlertRow)
    (rt' rt : String) (h : rt' ≠ rt) :
    alertsFor (riskStep thr pid scores ts acc rt') rt = alertsFor acc rt := by
  unfold riskStep
  cases riskCandidate thr rt' (getScore scores rt') with
  | none => rfl
  | some p => exact alertsFor_generate_alert_ne acc pid rt' _ p ts rt h

lemma dedupHit_riskStep_ne (thr : Policy) (pid' : String)
    (scores : List (String × ℚ)) (ts' : ℤ) (acc : List AlertRow)
    (rt' : String) (pid rt : String) (ts : ℤ) (h : rt' ≠ rt) :
    dedupHit (riskStep thr pid' scores ts' acc rt') pid rt ts =
      dedupHit acc pid rt ts := by
  unfold riskStep
  cases riskCandidate thr rt' (getScore scores rt') with
  | none => rfl
  | some p => exact dedupHit_generate_alert_ne acc pid' rt' _ p ts' pid rt ts h

lemma alertsFor_riskStep_self (thr : Policy) (pid : String)
    (scores : List (String × ℚ)) (ts : ℤ) (acc : List AlertRow) (rt : String)
    (hded : dedupHit acc pid rt ts = false) :
    alertsFor (riskStep thr pid scores ts acc rt) rt =
      (match riskCandidate thr rt (getScore scores rt) with
        | some p => alertsFor acc rt ++
            [⟨pid, ts, rt, getScore scores rt, p, "active"⟩]
        | none => alertsFor acc rt) := by
  unfold riskStep
  cases riskCandidate thr rt (getScore scores rt) with
  | none => rfl
  | some p =>
    simp only [generate_alert, hded, Bool.false_eq_true, if_false,
      alertsFor_append]
    simp [alertsFor]

/-- Effect of `check_risk_alerts` (with a successfully read policy) on the
alerts of one of the three checked risk types, assuming no dedup hit for
that type in the incoming store. -/
lemma check_risk_alerts_alertsFor (thr : Policy) (alerts : List AlertRow)
    (pid : String) (scores : List (String × ℚ)) (ts : ℤ) (rt : String)
    (hrt : rt = "deterioration" ∨ rt = "readmission" ∨ rt = "sepsis")
    (hded : dedupHit alerts pid rt ts = false) :
    alertsFor (check_risk_alerts (.ok (some thr)) alerts pid scores ts) rt =
      (match riskCandidate thr rt (getScore scores rt) with
        | some p => alertsFor alerts rt ++
            [⟨pid, ts, rt, getScore scores rt, p, "active"⟩]
        | none => alertsFor alerts rt) := by
  have hfold : check_risk_alerts (.ok (some thr)) alerts pid scores ts =
      riskStep thr pid scores ts
        (riskStep thr pid scores ts
          (riskStep thr pid scores ts alerts "deterioration")
          "readmission")
        "sepsis" := rfl
  rw [hfold]
  rcases hrt with h | h | h <;> subst h
  · rw [alertsFor_riskStep_ne thr pid scores ts _ "sepsis" "deterioration"
        (by decide),
      alertsFor_riskStep_ne thr pid scores ts _ "readmission" "deterioration"
        (by decide),
      alertsFor_riskStep_self thr pid scores ts alerts "deterioration" hded]
  · have h1 : dedupHit (riskStep thr pid scores ts alerts "deterioration")
        pid "readmission" ts = false := by
      rw [dedupHit_riskStep_ne thr pid scores ts alerts "deterioration"
        pid "readmission" ts (by decide)]
      exact hded
    rw [alertsFor_riskStep_ne thr pid scores ts _ "sepsis" "readmission"
        (by decide),
      alertsFor_riskStep_self thr pid scores ts _ "readmission" h1,
      alertsFor_riskStep_ne thr pid scores ts alerts "deterioration"
        "readmission" (by decide)]
  · have h1 : dedupHit (riskStep thr pid scores ts alerts "deterioration")
        pid "sepsis" ts = false := by
      rw [dedupHit_riskStep_ne thr pid scores ts alerts "deterioration"
        pid "sepsis" ts (by decide)]
      exact hded
    have h2 : dedupHit (riskStep thr pid scores ts
        (riskStep thr pid scores ts alerts "deterioration") "readmission")
        pid "sepsis" ts = false := by
      rw [dedupHit_riskStep_ne thr pid scores ts _ "readmission"
        pid "sepsis" ts (by decide)]
      exact h1
    rw [alertsFor_riskStep_self thr pid scores ts _ "sepsis" h2,
      alertsFor_riskStep_ne thr pid scores ts _ "readmission" "sepsis"
        (by decide),
      alertsFor_riskStep_ne thr pid scores ts alerts "deterioration" "sepsis"
        (by decide)]

/-! ### C1 -/

/-- C1: for every risk-score evaluation of a risk type `rt` among
deterioration, readmission, sepsis with configured thresholds for `rt`:
score ≥ high yields an alert of priority "high"; otherwise score ≥ medium
yields priority "medium"; otherwise no alert is generated for `rt`
(alert production observed on the alerts store, in the absence of a dedup
suppression for `rt`). -/
theorem C1_threshold_tiering (thr : Policy) (t : Thresholds) (rt pid : String)
    (scores : List (String × ℚ)) (alerts : List AlertRow) (ts : ℤ)
    (hrt : rt = "deterioration" ∨ rt = "readmission" ∨ rt = "sepsis")
    (hthr : lookupPolicy thr rt = some t)
    (hded : dedupHit alerts pid rt ts = false) :
    (getScore scores rt ≥ t.high →
      alertsFor (check_risk_alerts (.ok (some thr)) alerts pid scores ts) rt =
        alertsFor alerts rt ++
          [⟨pid, ts, rt, getScore scores rt, "high", "active"⟩]) ∧
    (¬ getScore scores rt ≥ t.high → getScore scores rt ≥ t.medium →
      alertsFor (check_risk_alerts (.ok (some thr)) alerts pid scores ts) rt =
        alertsFor alerts rt ++
          [⟨pid, ts, rt, getScore scores rt, "medium", "active"⟩]) ∧
    (¬ getScore scores rt ≥ t.high → ¬ getScore scores rt ≥ t.medium →
      alertsFor (check_risk_alerts (.ok (some thr)) alerts pid scores ts) rt =
        alertsFor alerts rt) := by
  have hm := check_risk_alerts_alertsFor thr alerts pid scores ts rt hrt hded
  refine ⟨fun hh => ?_, fun hnh hmed => ?_, fun hnh hnm => ?_⟩
  · have hc : riskCandidate thr rt (getScore scores rt) = some "high" := by
      unfold riskCandidate
      rw [hthr]
      simp [hh]
    rw [hc] at hm
    simpa using hm
  · have hc : riskCandidate thr rt (getScore scores rt) = some "medium" := by
      unfold riskCandidate
      rw [hthr]
      simp [hnh, hmed]
    rw [hc] at hm
    simpa using hm
  · have hc : riskCandidate thr rt (getScore scores rt) = none := by
      unfold riskCandidate
      rw [hthr]
      simp [hnh, hnm]
    rw [hc] at hm
    simpa using hm

/-- Witness for C1 at the claim's concrete inputs: sepsis with the default
thresholds (high 0.6, medium 0.3); score 0.75 yields a high-priority
alert, 0.45 a medium-priority alert, 0.2 none. -/
theorem C1_threshold_tiering_witness :
    alertsFor (check_risk_alerts (.ok (some ALERT_THRESHOLDS)) [] "P1"
      [("sepsis", 3/4)] 0) "sepsis" =
      [⟨"P1", 0, "sepsis", 3/4, "high", "active"⟩] ∧
    alertsFor (check_risk_alerts (.ok (some ALERT_THRESHOLDS)) [] "P1"
      [("sepsis", 9/20)] 0) "sepsis" =
      [⟨"P1", 0, "sepsis", 9/20, "medium", "active"⟩] ∧
    alertsFor (check_risk_alerts (.ok (some ALERT_THRESHOLDS)) [] "P1"
      [("sepsis", 1/5)] 0) "sepsis" = [] := by
  refine ⟨?_, ?_, ?_⟩
  · have h := (C1_threshold_tiering ALERT_THRESHOLDS ⟨6/10, 3/10⟩ "sepsis"
      "P1" [("sepsis", 3/4)] [] 0 (Or.inr (Or.inr rfl))
      (by with_unfolding_all decide) rfl).1
      (by with_unfolding_all decide)
    simpa [alertsFor, show getScore [("sepsis", (3:ℚ)/4)] "sepsis" = 3/4 from
      by with_unfolding_all decide] using h
  · have h := (C1_threshold_tiering ALERT_THRESHOLDS ⟨6/10, 3/10⟩ "sepsis"
      "P1" [("sepsis", 9/20)] [] 0 (Or.inr (Or.inr rfl))
      (by with_unfolding_all decide) rfl).2.1
      (by with_unfolding_all decide) (by with_unfolding_all decide)
    simpa [alertsFor, show getScore [("sepsis", (9:ℚ)/20)] "sepsis" = 9/20 from
      by with_unfolding_all decide] using h
  · have h := (C1_threshold_tiering ALERT_THRESHOLDS ⟨6/10, 3/10⟩ "sepsis"
      "P1" [("sepsis", 1/5)] [] 0 (Or.inr (Or.inr rfl))
      (by with_unfolding_all decide) rfl).2.2
      (by with_unfolding_all decide) (by with_unfolding_all decide)
    simpa [alertsFor] using h

/-! ### C2 -/

/-- C2 counterexample: the store holds a single active sepsis alert for
P1 timestamped 300 (one hour after the event at 240), which is not within
the 4 hours before the event; the claim then demands a new row, but
`generate_alert` leaves the store unchanged (the dedup query has no upper
bound on `timestamp`). -/
theorem C2_dedup_window_counterexample :
    ¬((240:ℤ) - dedupWindow < 300 ∧ (300:ℤ) ≤ 240) ∧
    generate_alert [⟨"P1", 300, "sepsis", 7/10, "high", "active"⟩] "P1"
        "sepsis" (7/10) "high" 240 =
      [⟨"P1", 300, "sepsis", 7/10, "high", "active"⟩] := by
  with_unfolding_all decide

/-- C2 amended: `generate_alert` suppresses exactly when an active alert
of the same patient and risk type has `timestamp` strictly later than
4 hours before the new event's timestamp (with no upper bound, so alerts
timestamped at or after the event also suppress); otherwise exactly one
new active row is inserted. Consequently two sepsis threshold-crossing
events 2 hours apart yield one active alert and 5 hours apart yield two. -/
theorem C2_dedup_window_amended (alerts : List AlertRow) (pid rt : String)
    (score : ℚ) (p : String) (ts : ℤ) :
    ((∃ a ∈ alerts, a.patient_id = pid ∧ a.risk_type = rt ∧
        a.status = "active" ∧ ts - dedupWindow < a.timestamp) →
      generate_alert alerts pid rt score p ts = alerts) ∧
    ((∀ a ∈ alerts, ¬(a.patient_id = pid ∧ a.risk_type = rt ∧
        a.status = "active" ∧ ts - dedupWindow < a.timestamp)) →
      generate_alert alerts pid rt score p ts =
        alerts ++ [⟨pid, ts, rt, score, p, "active"⟩]) ∧
    ((check_risk_alerts (.ok none) (check_risk_alerts (.ok none) [] "P2"
        [("sepsis", 13/20)] 0) "P2" [("sepsis", 13/20)] 120).countP
        (fun a => decide (a.status = "active")) = 1) ∧
    ((check_risk_alerts (.ok none) (check_risk_alerts (.ok none) [] "P2"
        [("sepsis", 13/20)] 0) "P2" [("sepsis", 13/20)] 300).countP
        (fun a => decide (a.status = "active")) = 2) := by
  have hiff : dedupHit alerts pid rt ts = true ↔
      ∃ a ∈ alerts, a.patient_id = pid ∧ a.risk_type = rt ∧
        a.status = "active" ∧ ts - dedupWindow < a.timestamp := by
    simp [dedupHit, List.any_eq_true]
  refine ⟨fun hex => ?_, fun hall => ?_, ?_, ?_⟩
  · unfold generate_alert
    rw [if_pos (hiff.mpr hex)]
  · have hd : ¬(dedupHit alerts pid rt ts = true) := by
      intro hT
      rcases hiff.mp hT with ⟨a, ha, hprop⟩
      exact hall a ha hprop
    unfold generate_alert
    rw [if_neg hd]
  · with_unfolding_all decide
  · with_unfolding_all decide

/-- Witness for the amended C2: inserting into an empty store creates the
single active row. -/
theorem C2_dedup_window_amended_witness :
    generate_alert [] "P3" "sepsis" (13/20) "high" 0 =
      [⟨"P3", 0, "sepsis", 13/20, "high", "active"⟩] :=
  (C2_dedup_window_amended [] "P3" "sepsis" (13/20) "high" 0).2.1 (by simp)

/-! ### C3 -/

/-- C3: for an abnormal lab value against a normal range `[nmin, nmax]`
(`nmin ≤ nmax`), the normalized deviation equals the distance to the
violated bound divided by the range width (width 1 for a zero-width
range); deviation below 0.5 generates no alert, in `[0.5, 1)` a
medium-priority alert, and at or above 1 a high-priority alert, under the
risk type `lab_` + lower-cased test name (alert production observed on the
alerts store, absent a dedup suppression for that risk type). -/
theorem C3_lab_deviation_tiering (tn : String) (v nmin nmax : ℚ)
    (pid : String) (ts : ℤ) (u : Option String) (alerts : List AlertRow)
    (hrange : nmin ≤ nmax)
    (hded : dedupHit alerts pid ("lab_" ++ tn.toLower) ts = false) :
    (v < nmin → labDeviation v nmin nmax =
      (nmin - v) / (if nmax - nmin = 0 then 1 else nmax - nmin)) ∧
    (v > nmax → labDeviation v nmin nmax =
      (v - nmax) / (if nmax - nmin = 0 then 1 else nmax - nmin)) ∧
    (labDeviation v nmin nmax < 1/2 →
      check_lab_alert alerts pid
        ⟨some pid, some ts, some tn, some v, u, some nmin, some nmax⟩ =
        alerts) ∧
    (1/2 ≤ labDeviation v nmin nmax → labDeviation v nmin nmax < 1 →
      check_lab_alert alerts pid
        ⟨some pid, some ts, some tn, some v, u, some nmin, some nmax⟩ =
        alerts ++ [⟨pid, ts, "lab_" ++ tn.toLower,
          labDeviation v nmin nmax, "medium", "active"⟩]) ∧
    (1 ≤ labDeviation v nmin nmax →
      check_lab_alert alerts pid
        ⟨some pid, some ts, some tn, some v, u, some nmin, some nmax⟩ =
        alerts ++ [⟨pid, ts, "lab_" ++ tn.toLower,
          labDeviation v nmin nmax, "high", "active"⟩]) := by
  refine ⟨fun h1 => ?_, fun h2 => ?_, fun h3 => ?_, fun h4 h5 => ?_,
    fun h6 => ?_⟩
  · simp only [labDeviation, if_pos h1]
  · have hnl : ¬ v < nmin := not_lt.mpr (le_trans hrange (le_of_lt h2))
    simp only [labDeviation, if_neg hnl, if_pos h2]
  · show (if labDeviation v nmin nmax ≥ 1/2 then
        generate_alert alerts pid ("lab_" ++ tn.toLower)
          (labDeviation v nmin nmax)
          (if labDeviation v nmin nmax ≥ 1 then "high" else "medium") ts
      else alerts) = alerts
    rw [if_neg (not_le.mpr h3)]
  · show (if labDeviation v nmin nmax ≥ 1/2 then
        generate_alert alerts pid ("lab_" ++ tn.toLower)
          (labDeviation v nmin nmax)
          (if labDeviation v nmin nmax ≥ 1 then "high" else "medium") ts
      else alerts) = alerts ++ [⟨pid, ts, "lab_" ++ tn.toLower,
        labDeviation v nmin nmax, "medium", "active"⟩]
    rw [if_pos h4, if_neg (not_le.mpr h5)]
    simp [generate_alert, hded]
  · show (if labDeviation v nmin nmax ≥ 1/2 then
        generate_alert alerts pid ("lab_" ++ tn.toLower)
          (labDeviation v nmin nmax)
          (if labDeviation v nmin nmax ≥ 1 then "high" else "medium") ts
      else alerts) = alerts ++ [⟨pid, ts, "lab_" ++ tn.toLower,
        labDeviation v nmin nmax, "high", "active"⟩]
    rw [if_pos (le_trans (by norm_num) h6), if_pos h6]
    simp [generate_alert, hded]

/-- Witness for C3 at the claim's concrete inputs: Glucose with normal
range [70, 99]; value 120 deviates by 21/29 ≈ 0.724 (medium), value 160
by 61/29 ≈ 2.1 (high). -/
theorem C3_lab_deviation_tiering_witness :
    labDeviation 120 70 99 = 21/29 ∧
    check_lab_alert [] "P1" ⟨some "P1", some 0, some "Glucose", some 120,
        none, some 70, some 99⟩ =
      [⟨"P1", 0, "lab_glucose", 21/29, "medium", "active"⟩] ∧
    labDeviation 160 70 99 = 61/29 ∧
    check_lab_alert [] "P1" ⟨some "P1", some 0, some "Glucose", some 160,
        none, some 70, some 99⟩ =
      [⟨"P1", 0, "lab_glucose", 61/29, "high", "active"⟩] := by
  refine ⟨by with_unfolding_all decide, ?_, by with_unfolding_all decide, ?_⟩
  · have h := (C3_lab_deviation_tiering "Glucose" 120 70 99 "P1" 0 none []
      (by norm_num) rfl).2.2.2.1 (by with_unfolding_all decide)
      (by with_unfolding_all decide)
    simpa [show labDeviation 120 70 99 = 21/29 from
        by with_unfolding_all decide,
      show ("lab_" ++ "Glucose".toLower) = "lab_glucose" from by with_unfolding_all decide]
      using h
  · have h := (C3_lab_deviation_tiering "Glucose" 160 70 99 "P1" 0 none []
      (by norm_num) rfl).2.2.2.2 (by with_unfolding_all decide)
    simpa [show labDeviation 160 70 99 = 61/29 from
        by with_unfolding_all decide,
      show ("lab_" ++ "Glucose".toLower) = "lab_glucose" from by with_unfolding_all decide]
      using h

/-! ### C7 -/

/-- C7 counterexample: with a failing `system_settings` read and a sepsis
score of 0.75, `check_risk_alerts` generates no alert at all (its `except`
swallows the error; there is no cached policy to fall back to), while the
same evaluation with the built-in defaults does generate one — refuting
"a store read failure does not prevent threshold evaluation and alert
generation". -/
theorem C7_threshold_defaults_counterexample :
    check_risk_alerts .fail [] "P1" [("sepsis", 3/4)] 0 = [] ∧
    check_risk_alerts (.ok none) [] "P1" [("sepsis", 3/4)] 0 =
      [⟨"P1", 0, "sepsis", 3/4, "high", "active"⟩] := by
  with_unfolding_all decide

/-- C7 amended: with no stored `alert_thresholds` row the built-in
defaults apply (deterioration 0.7/0.4, readmission 0.8/0.5, sepsis
0.6/0.3); a failing store read makes `check_risk_alerts` return with no
alert generated — the processor keeps no threshold cache, so there is no
cached-value fallback. -/
theorem C7_threshold_defaults_amended (alerts : List AlertRow) (pid : String)
    (scores : List (String × ℚ)) (ts : ℤ) :
    check_risk_alerts (.ok none) alerts pid scores ts =
      check_risk_alerts (.ok (some ALERT_THRESHOLDS)) alerts pid scores ts ∧
    lookupPolicy ALERT_THRESHOLDS "deterioration" = some ⟨7/10, 4/10⟩ ∧
    lookupPolicy ALERT_THRESHOLDS "readmission" = some ⟨8/10, 5/10⟩ ∧
    lookupPolicy ALERT_THRESHOLDS "sepsis" = some ⟨6/10, 3/10⟩ ∧
    check_risk_alerts .fail alerts pid scores ts = alerts :=
  ⟨rfl, by with_unfolding_all decide, by with_unfolding_all decide,
    by with_unfolding_all decide, rfl⟩

/-! ### C4 -/

/-- C4 counterexample: the empty store satisfies the invariant, yet two
identical `add` events for the same `(patient_id, name)` leave two active
rows — `process_medication` inserts on `add` without checking for an
existing active course. -/
theorem C4_medication_invariant_counterexample :
    countActive ([] : List MedRow) "P1" "MedX" = 0 ∧
    countActive
      (process_medication
        (process_medication []
          ⟨some "P1", some 0, some "add",
            some ⟨some "MedX", some "5mg", none, none, none⟩, none⟩)
        ⟨some "P1", some 0, some "add",
          some ⟨some "MedX", some "5mg", none, none, none⟩, none⟩)
      "P1" "MedX" = 2 := by
  decide

/-- C4 amended: the invariant "at most one active row per
`(patient_id, name)`" is preserved by every medication event, provided an
`add` for a named medication arrives only while no active record for that
key exists, and a `change_dose` names as `old_dosage` the dosage of every
active record of its key. (`discontinue`, unknown actions, and malformed
events preserve it unconditionally.) -/
theorem C4_medication_invariant_amended (meds : List MedRow) (m : MedMessage)
    (hinv : MedInvariant meds)
    (hadd : ∀ pid md nm, m.action = some "add" → m.patient_id = some pid →
      m.medication = some md → md.name = some nm →
      countActive meds pid nm = 0)
    (hchg : ∀ pid md, m.action = some "change_dose" →
      m.patient_id = some pid → m.medication = some md →
      ∀ r ∈ meds, r.patient_id = pid → r.name = md.name →
        r.end_date = none → sqlEq r.dosage m.old_dosage = true) :
    MedInvariant (process_medication meds m) := by
  intro pid' nm'
  cases hp : m.patient_id with
  | none => simpa [process_medication, hp] using hinv pid' nm'
  | some pid =>
  cases ht : m.timestamp with
  | none => simpa [process_medication, hp, ht] using hinv pid' nm'
  | some ts =>
  cases ha : m.action with
  | none => simpa [process_medication, hp, ht, ha] using hinv pid' nm'
  | some act =>
  cases hmd : m.medication with
  | none => simpa [process_medication, hp, ht, ha, hmd] using hinv pid' nm'
  | some md =>
  simp only [process_medication, hp, ht, ha, hmd]
  by_cases h1 : act = "add"
  · subst h1
    rw [if_pos rfl]
    have hb := hinv pid' nm'
    unfold countActive at hadd hb ⊢
    rw [List.countP_append]
    by_cases hkey : pid = pid' ∧ md.name = some nm'
    · obtain ⟨hpp, hnm⟩ := hkey
      subst hpp
      have h0 := hadd pid md nm' ha hp hmd hnm
      rw [h0]
      simp [List.countP_cons, hnm]
    · have hzero : List.countP
          (fun r => decide (r.patient_id = pid' ∧ r.name = some nm' ∧
            r.end_date = none))
          [(⟨pid, md.name, md.dosage, md.frequency, md.route,
            some (md.start_date.getD ts), none⟩ : MedRow)] = 0 := by
        simp [List.countP_cons, hkey]
      rw [hzero]
      simpa using hb
  · rw [if_neg h1]
    by_cases h2 : act = "discontinue"
    · subst h2
      rw [if_pos rfl]
      have hb := hinv pid' nm'
      unfold countActive at hb ⊢
      rw [List.countP_map]
      refine le_trans (List.countP_mono_left ?_) hb
      intro r _ hpr
      simp only [Function.comp] at hpr
      by_cases hc : (decide (r.patient_id = pid) && sqlEq r.name md.name &&
          sqlEq r.start_date md.start_date && decide (r.end_date = none)) = true
      · simp [hc] at hpr
      · simp [hc] at hpr
        simpa using hpr
    · rw [if_neg h2]
      by_cases h3 : act = "change_dose"
      · subst h3
        rw [if_pos rfl]
        have hb := hinv pid' nm'
        unfold countActive at hb ⊢
        rw [List.countP_append, List.countP_map]
        by_cases hkey : pid = pid' ∧ md.name = some nm'
        · have hzero : List.countP
              ((fun r => decide (r.patient_id = pid' ∧ r.name = some nm' ∧
                r.end_date = none)) ∘
                (fun r => if (decide (r.patient_id = pid) &&
                    sqlEq r.name md.name && sqlEq r.dosage m.old_dosage &&
                    decide (r.end_date = none)) = true then
                  { r with end_date := some ts } else r)) meds = 0 := by
            rw [List.countP_eq_zero]
            intro r hr hpr
            simp only [Function.comp] at hpr
            by_cases hc : (decide (r.patient_id = pid) &&
                sqlEq r.name md.name && sqlEq r.dosage m.old_dosage &&
                decide (r.end_date = none)) = true
            · simp [hc] at hpr
            · simp [hc] at hpr
              obtain ⟨hrp, hrn, hre⟩ := hpr
              have hdos := hchg pid md ha hp hmd r hr
                (by rw [hrp]; exact hkey.1.symm)
                (by rw [hrn]; exact hkey.2.symm) hre
              apply hc
              simp only [Bool.and_eq_true]
              refine ⟨⟨⟨?_, ?_⟩, ?_⟩, ?_⟩
              · rw [decide_eq_true_eq, hrp]
                exact hkey.1.symm
              · rw [hrn, hkey.2]
                simp [sqlEq]
              · exact hdos
              · rw [decide_eq_true_eq]
                exact hre
          rw [hzero]
          simp [List.countP_cons, hkey.1, hkey.2]
        · have hone : List.countP
              (fun r => decide (r.patient_id = pid' ∧ r.name = some nm' ∧
                r.end_date = none))
              [(⟨pid, md.name, md.dosage, md.frequency, md.route,
                some ts, none⟩ : MedRow)] = 0 := by
            simp [List.countP_cons, hkey]
          rw [hone]
          refine le_trans (le_of_eq (Nat.add_zero _)) (le_trans
            (List.countP_mono_left ?_) hb)
          intro r _ hpr
          simp only [Function.comp] at hpr
          by_cases hc : (decide (r.patient_id = pid) &&
              sqlEq r.name md.name && sqlEq r.dosage m.old_dosage &&
              decide (r.end_date = none)) = true
          · simp [hc] at hpr
          · simp [hc] at hpr
            simpa using hpr
      · rw [if_neg h3]
        exact hinv pid' nm'

/-- Witness for the amended C4: discontinuing the single active course of
MedX leaves at most one active row for the key. -/
theorem C4_medication_invariant_amended_witness :
    countActive
      (process_medication
        [⟨"P1", some "MedX", some "5mg", none, none, some 0, none⟩]
        ⟨some "P1", some 60, some "discontinue",
          some ⟨some "MedX", none, none, none, some 0⟩, none⟩)
      "P1" "MedX" ≤ 1 :=
  C4_medication_invariant_amended _ _
    (fun pid nm => by
      simp only [countActive, List.countP_cons, List.countP_nil]
      split <;> simp)
    (fun pid md nm ha => by simp at ha)
    (fun pid md ha => by simp at ha)
    "P1" "MedX"

/-! ### C5 -/

lemma insertVitals_after (rows : List VitalsRow) (r : VitalsRow)
    (rows' : List VitalsRow) (h : insertVitals rows r = .ok rows') :
    insertVitals rows' r = .error () := by
  unfold insertVitals at h ⊢
  split at h
  · simp at h
  · cases h
    rw [if_pos]
    simp [List.any_append]

lemma insertLab_after (rows : List LabRow) (r : LabRow)
    (rows' : List LabRow) (h : insertLab rows r = .ok rows') :
    insertLab rows' r = .error () := by
  unfold insertLab at h ⊢
  split at h
  · simp at h
  · cases h
    rw [if_pos]
    simp [List.any_append]

/-- C5: handlers whose row has a natural key are idempotent — processing
the same vitals message (key `patient_id + timestamp`) or the same labs
message (key `patient_id + timestamp + test_name`) a second time leaves
the relational store exactly as after the first processing: the keyed
insert raises on the replay and the handler's `except` discards it before
any further effect (including the lab alert path). -/
theorem C5_idempotent_natural_key_writes (s : DbState) (mv : VitalsMessage)
    (ml : LabMessage) :
    process_vitals (process_vitals s mv) mv = process_vitals s mv ∧
    process_labs (process_labs s ml) ml = process_labs s ml := by
  constructor
  · cases hp : mv.patient_id with
    | none => simp [process_vitals, hp]
    | some pid =>
    cases ht : mv.timestamp with
    | none => simp [process_vitals, hp, ht]
    | some ts =>
    cases hins : insertVitals s.vitals ⟨pid, ts, mv.heart_rate,
        mv.systolic_bp, mv.diastolic_bp, mv.temperature, mv.respiration_rate,
        mv.o2_saturation, mv.pain_level⟩ with
    | error e => simp [process_vitals, hp, ht, hins]
    | ok rows =>
      have h2 := insertVitals_after s.vitals _ rows hins
      simp [process_vitals, hp, ht, hins, h2]
  · cases hp : ml.patient_id with
    | none => simp [process_labs, hp]
    | some pid =>
    cases ht : ml.timestamp with
    | none => simp [process_labs, hp, ht]
    | some ts =>
    cases hins : insertLab s.lab_results ⟨pid, ts, ml.test_name, ml.value,
        ml.unit, ml.normal_min, ml.normal_max,
        (match ml.normal_min, ml.normal_max, ml.value with
          | some nmin, some nmax, some v => decide (v < nmin ∨ v > nmax)
          | _, _, _ => false)⟩ with
    | error e =>
      simp only [Bool.decide_or, gt_iff_lt] at hins
      simp [process_labs, hp, ht, hins]
    | ok rows =>
      have h2 := insertLab_after s.lab_results _ rows hins
      simp only [Bool.decide_or, gt_iff_lt] at hins h2
      simp [process_labs, hp, ht, hins, h2, apply_ite]
      split <;> simp_all

/-! ### C8 -/

/-- C8: a message missing a required key is skipped without any store
write — `patient_id` for patient snapshots, `patient_id`/`timestamp` for
vitals and labs, and `patient_id`/`timestamp`/`action`/`medication` for
medication events; the handler returns with the state unchanged (and, in
the embedding, is total: no exception escapes to the caller). -/
theorem C8_malformed_message_skip (s : DbState) (mp : PatientMessage)
    (mv : VitalsMessage) (ml : LabMessage) (mm : MedMessage) (now : ℤ)
    (hp : mp.patient_id = none)
    (hv : mv.patient_id = none ∨ mv.timestamp = none)
    (hl : ml.patient_id = none ∨ ml.timestamp = none)
    (hm : mm.patient_id = none ∨ mm.timestamp = none ∨ mm.action = none ∨
      mm.medication = none) :
    process_patient_data s mp now = s ∧ process_vitals s mv = s ∧
    process_labs s ml = s ∧
    process_medication s.medications mm = s.medications := by
  refine ⟨?_, ?_, ?_, ?_⟩
  · simp [process_patient_data, hp]
  · rcases hv with h | h
    · simp [process_vitals, h]
    · cases hpv : mv.patient_id <;> simp [process_vitals, hpv, h]
  · rcases hl with h | h
    · simp [process_labs, h]
    · cases hpl : ml.patient_id <;> simp [process_labs, hpl, h]
  · rcases hm with h | h | h | h
    · simp [process_medication, h]
    · cases h1 : mm.patient_id <;> simp [process_medication, h1, h]
    · cases h1 : mm.patient_id <;> cases h2 : mm.timestamp <;>
        simp [process_medication, h1, h2, h]
    · cases h1 : mm.patient_id <;> cases h2 : mm.timestamp <;>
        cases h3 : mm.action <;> simp [process_medication, h1, h2, h3, h]

/-- Witness for C8: all-empty messages against an empty store leave every
table untouched. -/
theorem C8_malformed_message_skip_witness :
    process_patient_data ⟨[], [], [], [], [], [], [], [], .ok none⟩
      ⟨none, none, none, none, none, none, none, none, none, none, none,
        none, none⟩ 0 = ⟨[], [], [], [], [], [], [], [], .ok none⟩ ∧
    process_vitals ⟨[], [], [], [], [], [], [], [], .ok none⟩
      ⟨none, none, none, none, none, none, none, none, none⟩ =
      ⟨[], [], [], [], [], [], [], [], .ok none⟩ ∧
    process_labs ⟨[], [], [], [], [], [], [], [], .ok none⟩
      ⟨none, none, none, none, none, none, none⟩ =
      ⟨[], [], [], [], [], [], [], [], .ok none⟩ ∧
    process_medication ([] : List MedRow) ⟨none, none, none, none, none⟩ =
      ([] : List MedRow) := by
  have h := C8_malformed_message_skip ⟨[], [], [], [], [], [], [], [],
      .ok none⟩
    ⟨none, none, none, none, none, none, none, none, none, none, none,
      none, none⟩
    ⟨none, none, none, none, none, none, none, none, none⟩
    ⟨none, none, none, none, none, none, none⟩
    ⟨none, none, none, none, none⟩ 0 rfl (Or.inl rfl) (Or.inl rfl)
    (Or.inl rfl)
  exact h

/-! ### C10 -/

/-- C10: a labs message with `patient_id` and `timestamp` but a missing
`value`, `normal_min` or `normal_max` is stored with
`is_abnormal = false`, and the lab-alert path is never invoked (the alerts
store is untouched). The freshness hypothesis on the natural key reflects
the keyed `lab_results` insert (see `insertLab`). -/
theorem C10_incomplete_lab_no_alert (s : DbState) (m : LabMessage)
    (pid : String) (ts : ℤ)
    (hpid : m.patient_id = some pid) (hts : m.timestamp = some ts)
    (hmiss : m.value = none ∨ m.normal_min = none ∨ m.normal_max = none)
    (hkey : s.lab_results.any (fun x => decide (x.patient_id = pid ∧
      x.timestamp = ts ∧ x.test_name = m.test_name)) = false) :
    process_labs s m = { s with lab_results := s.lab_results ++
      [⟨pid, ts, m.test_name, m.value, m.unit, m.normal_min, m.normal_max,
        false⟩] } := by
  have hab : (match m.normal_min, m.normal_max, m.value with
      | some nmin, some nmax, some v => decide (v < nmin ∨ v > nmax)
      | _, _, _ => false) = false := by
    rcases hmiss with h | h | h
    · cases h1 : m.normal_min <;> cases h2 : m.normal_max <;>
        simp [h, h1, h2]
    · simp [h]
    · cases h1 : m.normal_min <;> simp [h, h1]
  simp only [Bool.decide_or, gt_iff_lt] at hab
  have hkey' : ¬∃ x ∈ s.lab_results, x.patient_id = pid ∧
      x.timestamp = ts ∧ x.test_name = m.test_name := by
    intro hex
    have hT : s.lab_results.any (fun x => decide (x.patient_id = pid ∧
        x.timestamp = ts ∧ x.test_name = m.test_name)) = true := by
      simpa using hex
    rw [hkey] at hT
    exact Bool.false_ne_true hT
  simp [process_labs, hpid, hts, hab, insertLab, hkey']

/-- Witness for C10: a Glucose result with a missing value is stored as
not abnormal and generates nothing. -/
theorem C10_incomplete_lab_no_alert_witness :
    process_labs ⟨[], [], [], [], [], [], [], [], .ok none⟩
      ⟨some "P1", some 0, some "Glucose", none, none, some 70, some 99⟩ =
      ⟨[], [], [], [], [],
        [⟨"P1", 0, some "Glucose", none, none, some 70, some 99, false⟩],
        [], [], .ok none⟩ := by
  have h := C10_incomplete_lab_no_alert
    ⟨[], [], [], [], [], [], [], [], .ok none⟩
    ⟨some "P1", some 0, some "Glucose", none, none, some 70, some 99⟩
    "P1" 0 rfl rfl (Or.inl rfl) rfl
  simpa using h

/-! ### Helper lemmas about snapshot processing -/

lemma process_risk_scores_patients (s : DbState) (pid : String)
    (rs : List (String × ℚ)) (ts : ℤ) :
    (process_risk_scores s pid rs ts).patients = s.patients := by
  unfold process_risk_scores
  split <;> rfl

lemma process_risk_scores_diagnoses (s : DbState) (pid : String)
    (rs : List (String × ℚ)) (ts : ℤ) :
    (process_risk_scores s pid rs ts).diagnoses = s.diagnoses := by
  unfold process_risk_scores
  split <;> rfl

lemma process_risk_scores_comorbidities (s : DbState) (pid : String)
    (rs : List (String × ℚ)) (ts : ℤ) :
    (process_risk_scores s pid rs ts).comorbidities = s.comorbidities := by
  unfold process_risk_scores
  split <;> rfl

/-- The effect of `process_patient_data` on the patients, diagnoses and
comorbidities tables, in terms of the individual sub-handlers. -/
lemma ppd_fields (s : DbState) (m : PatientMessage) (now : ℤ) (pid : String)
    (hpid : m.patient_id = some pid) :
    (process_patient_data s m now).patients =
      upsert_patient s.patients (mkPatientRow pid m) ∧
    (process_patient_data s m now).diagnoses =
      (match m.diagnoses with
        | some ds => process_diagnoses s.diagnoses pid ds
        | none => s.diagnoses) ∧
    (process_patient_data s m now).comorbidities =
      (match m.comorbidities with
        | some cs => process_comorbidities s.comorbidities pid cs
        | none => s.comorbidities) := by
  cases hd : m.diagnoses <;> cases hc : m.comorbidities <;>
    cases hr : m.risk_scores <;> cases hm : m.medications <;>
    simp [process_patient_data, hpid, hd, hc, hr, hm,
      process_risk_scores_patients, process_risk_scores_diagnoses,
      process_risk_scores_comorbidities]

/-- The `any`-based conflict check of the `ON CONFLICT DO NOTHING` insert
is exactly membership of the inserted pair. -/
lemma anyKey_iff (acc : List (String × String)) (pid d : String) :
    (acc.any (fun y => decide (y.1 = pid ∧ y.2 = d)) = true) ↔
      (pid, d) ∈ acc := by
  simp only [List.any_eq_true, decide_eq_true_eq]
  constructor
  · rintro ⟨⟨a, b⟩, hy, h1, h2⟩
    subst h1
    subst h2
    exact hy
  · intro h
    exact ⟨(pid, d), h, rfl, rfl⟩

/-- Membership after the insert loop of `process_diagnoses` /
`process_comorbidities`: a pair is present iff it was in the cleared base
or its second component is in the inserted list. -/
lemma mem_insertSet (ds : List String) (pid : String)
    (acc : List (String × String)) (x : String × String) :
    x ∈ ds.foldl (fun acc d =>
      if acc.any (fun y => decide (y.1 = pid ∧ y.2 = d)) then acc
      else acc ++ [(pid, d)]) acc ↔ x ∈ acc ∨ (x.1 = pid ∧ x.2 ∈ ds) := by
  induction ds generalizing acc with
  | nil => simp
  | cons d rest ih =>
    simp only [List.foldl_cons]
    by_cases hmem : (pid, d) ∈ acc
    · rw [if_pos ((anyKey_iff acc pid d).mpr hmem), ih]
      rcases x with ⟨a, b⟩
      constructor
      · rintro (hx | ⟨h1, h2⟩)
        · exact Or.inl hx
        · exact Or.inr ⟨h1, List.mem_cons_of_mem _ h2⟩
      · rintro (hx | ⟨h1, h2⟩)
        · exact Or.inl hx
        · rcases List.mem_cons.mp h2 with h2 | h2
          · left
            have h1' : a = pid := h1
            subst h1'
            subst h2
            exact hmem
          · exact Or.inr ⟨h1, h2⟩
    · rw [if_neg (fun hT => hmem ((anyKey_iff acc pid d).mp hT)), ih]
      rcases x with ⟨a, b⟩
      constructor
      · rintro (hx | ⟨h1, h2⟩)
        · rcases List.mem_append.mp hx with hx | hx
          · exact Or.inl hx
          · have he := List.mem_singleton.mp hx
            rw [Prod.mk.injEq] at he
            refine Or.inr ⟨he.1, ?_⟩
            rw [he.2]
            exact List.mem_cons_self _ _
        · exact Or.inr ⟨h1, List.mem_cons_of_mem _ h2⟩
      · rintro (hx | ⟨h1, h2⟩)
        · exact Or.inl (List.mem_append.mpr (Or.inl hx))
        · rcases List.mem_cons.mp h2 with h2 | h2
          · refine Or.inl (List.mem_append.mpr (Or.inr ?_))
            rw [List.mem_singleton, Prod.mk.injEq]
            exact ⟨h1, h2⟩
          · exact Or.inr ⟨h1, h2⟩

/-- Replace-by-set for a nonempty diagnoses list: after
`process_diagnoses`, the patient's stored set is exactly the set of the
message's list. -/
lemma mem_process_diagnoses (rows : List (String × String)) (pid : String)
    (ds : List String) (hne : ds ≠ []) (d : String) :
    (pid, d) ∈ process_diagnoses rows pid ds ↔ d ∈ ds := by
  unfold process_diagnoses
  rw [if_neg hne, mem_insertSet]
  simp [List.mem_filter]

lemma mem_process_comorbidities (rows : List (String × String))
    (pid : String) (cs : List String) (hne : cs ≠ []) (c : String) :
    (pid, c) ∈ process_comorbidities rows pid cs ↔ c ∈ cs := by
  unfold process_comorbidities
  rw [if_neg hne, mem_insertSet]
  simp [List.mem_filter]

lemma filter_map_replace (l : List PatientRow) (r : PatientRow)
    (h1 : l.countP (fun p => decide (p.patient_id = r.patient_id)) = 1) :
    (l.map (fun p => if p.patient_id = r.patient_id then r else p)).filter
      (fun p => decide (p.patient_id = r.patient_id)) = [r] := by
  induction l with
  | nil => simp at h1
  | cons a tl ih =>
    by_cases ha : a.patient_id = r.patient_id
    · have h0 : tl.countP (fun p => decide (p.patient_id = r.patient_id))
          = 0 := by
        rw [List.countP_cons] at h1
        simpa [ha] using h1
      have hrest : (tl.map (fun p =>
          if p.patient_id = r.patient_id then r else p)).filter
          (fun p => decide (p.patient_id = r.patient_id)) = [] := by
        rw [List.filter_eq_nil_iff]
        intro b hb
        rw [List.mem_map] at hb
        rcases hb with ⟨c, hc, hcb⟩
        by_cases hcp : c.patient_id = r.patient_id
        · exact absurd ((List.countP_eq_zero.mp h0) c hc)
            (by simp [hcp])
        · rw [if_neg hcp] at hcb
          subst hcb
          simp [hcp]
      simp only [List.map_cons]
      rw [if_pos ha, List.filter_cons_of_pos (by simp), hrest]
    · have h1' : tl.countP (fun p => decide (p.patient_id = r.patient_id))
          = 1 := by
        rw [List.countP_cons] at h1
        simpa [ha] using h1
      simp only [List.map_cons]
      rw [if_neg ha, List.filter_cons_of_neg (by simp [ha])]
      exact ih h1'

/-- Final-write-wins: with at most one stored row for the key,
`upsert_patient` leaves exactly one row for it, equal to the incoming
record. -/
lemma upsert_patient_filter (patients : List PatientRow) (r : PatientRow)
    (hkey : patients.countP
      (fun p => decide (p.patient_id = r.patient_id)) ≤ 1) :
    (upsert_patient patients r).filter
      (fun p => decide (p.patient_id = r.patient_id)) = [r] := by
  unfold upsert_patient
  by_cases hex : patients.any
      (fun p => decide (p.patient_id = r.patient_id)) = true
  · rw [if_pos hex]
    have hpos : 0 < patients.countP
        (fun p => decide (p.patient_id = r.patient_id)) := by
      rw [List.countP_pos_iff]
      simpa [List.any_eq_true] using hex
    exact filter_map_replace patients r (le_antisymm hkey hpos)
  · rw [if_neg hex, List.filter_append]
    have h0 : patients.filter
        (fun p => decide (p.patient_id = r.patient_id)) = [] := by
      rw [List.filter_eq_nil_iff]
      intro a ha hpa
      exact hex (List.any_eq_true.mpr ⟨a, ha, hpa⟩)
    rw [h0]
    simp

lemma upsert_patient_countP (patients : List PatientRow) (r : PatientRow)
    (hkey : patients.countP
      (fun p => decide (p.patient_id = r.patient_id)) ≤ 1) :
    (upsert_patient patients r).countP
      (fun p => decide (p.patient_id = r.patient_id)) = 1 := by
  rw [List.countP_eq_length_filter, upsert_patient_filter patients r hkey]
  rfl

lemma upsert_patient_filter' (patients : List PatientRow) (r : PatientRow)
    (pid : String) (hr : r.patient_id = pid)
    (hkey : patients.countP (fun p => decide (p.patient_id = pid)) ≤ 1) :
    (upsert_patient patients r).filter
      (fun p => decide (p.patient_id = pid)) = [r] := by
  subst hr
  exact upsert_patient_filter patients r hkey

lemma upsert_patient_countP' (patients : List PatientRow) (r : PatientRow)
    (pid : String) (hr : r.patient_id = pid)
    (hkey : patients.countP (fun p => decide (p.patient_id = pid)) ≤ 1) :
    (upsert_patient patients r).countP
      (fun p => decide (p.patient_id = pid)) = 1 := by
  subst hr
  exact upsert_patient_countP patients r hkey

/-! ### C6 -/

/-- C6 counterexample: a snapshot carrying empty diagnoses and
comorbidities lists leaves the previously stored entries in place (the
handlers return early on an empty list), so the stored sets do not equal
the message's (empty) sets. -/
theorem C6_replace_by_set_counterexample :
    (process_patient_data
      ⟨[], [("P1", "flu")], [("P1", "smoker")], [], [], [], [], [], .ok none⟩
      ⟨some "P1", none, none, none, none, none, none, none, none,
        some [], some [], none, none⟩ 0).diagnoses = [("P1", "flu")] ∧
    (process_patient_data
      ⟨[], [("P1", "flu")], [("P1", "smoker")], [], [], [], [], [], .ok none⟩
      ⟨some "P1", none, none, none, none, none, none, none, none,
        some [], some [], none, none⟩ 0).comorbidities = [("P1", "smoker")] ∧
    ([("P1", "flu")] : List (String × String)) ≠ [] := by
  decide

/-- C6 amended: for a present *nonempty* diagnoses (resp. comorbidities)
list, `process_patient_data` replaces the patient's stored set by exactly
the message's set (delete-then-insert, not merge); a present *empty* list
is a no-op that leaves the previously stored set unchanged. -/
theorem C6_replace_by_set_amended (s : DbState) (m : PatientMessage)
    (pid : String) (now : ℤ) (hpid : m.patient_id = some pid) :
    (∀ ds, m.diagnoses = some ds → ds ≠ [] →
      ∀ d, ((pid, d) ∈ (process_patient_data s m now).diagnoses ↔ d ∈ ds)) ∧
    (m.diagnoses = some [] →
      (process_patient_data s m now).diagnoses = s.diagnoses) ∧
    (∀ cs, m.comorbidities = some cs → cs ≠ [] →
      ∀ c, ((pid, c) ∈ (process_patient_data s m now).comorbidities ↔
        c ∈ cs)) ∧
    (m.comorbidities = some [] →
      (process_patient_data s m now).comorbidities = s.comorbidities) := by
  obtain ⟨hpat, hdiag, hcom⟩ := ppd_fields s m now pid hpid
  refine ⟨fun ds hds hne d => ?_, fun hds => ?_, fun cs hcs hne c => ?_,
    fun hcs => ?_⟩
  · rw [hds] at hdiag
    rw [hdiag]
    exact mem_process_diagnoses s.diagnoses pid ds hne d
  · rw [hds] at hdiag
    rw [hdiag]
    rfl
  · rw [hcs] at hcom
    rw [hcom]
    exact mem_process_comorbidities s.comorbidities pid cs hne c
  · rw [hcs] at hcom
    rw [hcom]
    rfl

/-- Witness for the amended C6 on a concrete snapshot: the old diagnosis
is gone and the new entries are exactly the message's. -/
theorem C6_replace_by_set_amended_witness :
    ((("P1", "flu") ∈ (process_patient_data
      ⟨[], [("P1", "old")], [], [], [], [], [], [], .ok none⟩
      ⟨some "P1", none, none, none, none, none, none, none, none,
        some ["flu", "copd"], some ["ht"], none, none⟩ 0).diagnoses) ↔
      "flu" ∈ ["flu", "copd"]) ∧
    ((("P1", "ht") ∈ (process_patient_data
      ⟨[], [("P1", "old")], [], [], [], [], [], [], .ok none⟩
      ⟨some "P1", none, none, none, none, none, none, none, none,
        some ["flu", "copd"], some ["ht"], none, none⟩ 0).comorbidities) ↔
      "ht" ∈ ["ht"]) :=
  ⟨(C6_replace_by_set_amended _ _ "P1" 0 rfl).1 _ rfl (by decide) "flu",
   (C6_replace_by_set_amended _ _ "P1" 0 rfl).2.2.1 _ rfl (by decide) "ht"⟩

/-! ### C9 -/

/-- C9 counterexample: replaying a snapshot whose diagnoses list is empty
leaves the old stored diagnosis, not the message's (empty) set — the
replay is not a pure set-replacement for empty lists. -/
theorem C9_snapshot_replay_counterexample :
    (process_patient_data (process_patient_data
      ⟨[], [("P1", "flu")], [], [], [], [], [], [], .ok none⟩
      ⟨some "P1", none, none, none, none, none, none, none, none,
        some [], none, none, none⟩ 0)
      ⟨some "P1", none, none, none, none, none, none, none, none,
        some [], none, none, none⟩ 0).diagnoses = [("P1", "flu")] ∧
    ([("P1", "flu")] : List (String × String)) ≠ [] := by
  decide

/-- C9 amended: replaying the same snapshot twice leaves exactly one
patients row for the patient (whose fields are the message's values,
final write wins — assuming the store starts with at most one row for the
key, as the primary key guarantees), and, for present nonempty lists,
diagnosis/comorbidity sets equal to the message's sets, not a union
(absent or empty lists leave the previous sets unchanged). -/
theorem C9_snapshot_replay_amended (s : DbState) (m : PatientMessage)
    (pid : String) (now : ℤ) (hpid : m.patient_id = some pid)
    (hkey : s.patients.countP (fun p => decide (p.patient_id = pid)) ≤ 1) :
    ((process_patient_data (process_patient_data s m now) m
        now).patients.filter (fun p => decide (p.patient_id = pid)) =
      [mkPatientRow pid m]) ∧
    (∀ ds, m.diagnoses = some ds → ds ≠ [] → ∀ d,
      ((pid, d) ∈ (process_patient_data (process_patient_data s m now) m
        now).diagnoses ↔ d ∈ ds)) ∧
    (∀ cs, m.comorbidities = some cs → cs ≠ [] → ∀ c,
      ((pid, c) ∈ (process_patient_data (process_patient_data s m now) m
        now).comorbidities ↔ c ∈ cs)) := by
  obtain ⟨hpat1, hdiag1, hcom1⟩ := ppd_fields s m now pid hpid
  obtain ⟨hpat2, hdiag2, hcom2⟩ :=
    ppd_fields (process_patient_data s m now) m now pid hpid
  refine ⟨?_, fun ds hds hne d => ?_, fun cs hcs hne c => ?_⟩
  · rw [hpat2, hpat1]
    exact upsert_patient_filter' _ _ pid rfl
      (le_of_eq (upsert_patient_countP' s.patients _ pid rfl hkey))
  · rw [hds] at hdiag2
    rw [hdiag2]
    exact mem_process_diagnoses _ pid ds hne d
  · rw [hcs] at hcom2
    rw [hcom2]
    exact mem_process_comorbidities _ pid cs hne c

/-- Witness for the amended C9 on a concrete snapshot replayed twice. -/
theorem C9_snapshot_replay_amended_witness :
    ((process_patient_data (process_patient_data
      ⟨[], [], [], [], [], [], [], [], .ok none⟩
      ⟨some "P1", some "MRN1", some "Alice", none, some 30, none, none,
        none, none, some ["flu"], some ["ht"], none, none⟩ 0)
      ⟨some "P1", some "MRN1", some "Alice", none, some 30, none, none,
        none, none, some ["flu"], some ["ht"], none, none⟩ 0).patients.filter
      (fun p => decide (p.patient_id = "P1"))) =
      [mkPatientRow "P1"
        ⟨some "P1", some "MRN1", some "Alice", none, some 30, none, none,
          none, none, some ["flu"], some ["ht"], none, none⟩] :=
  (C9_snapshot_replay_amended _ _ "P1" 0 rfl (by decide)).1

end HealthPulse
